import Mathlib

/-!
# Shallow embedding of the NewDayNewIndie playlist updater

This file embeds the retrying variant of `update_playlist.js` (the variant
with `Utils.retry`, `PlaylistManager.ensureValidToken`, a playlist-items
cache and eviction of old items) into Lean and proves properties of the
reconciliation algorithm, the candidate selector, the retry helper and the
top-level run.

Remote YouTube API behaviour is modelled by an explicit environment
`ApiEnv`: each remotely-callable operation either succeeds or fails, and a
persistent failure of a retried block is recorded as a flag/predicate in
the environment (the retry mechanics themselves are modelled separately and
verified as `Utils.retry`).  The remote playlist is a `PlaylistState`; an
inserted item is appended at the end of the playlist, the way the YouTube
API appends an item inserted without an explicit position.

The source's `YouTubeClient` does not define a `refreshTokenIfNeeded`
method although `PlaylistManager.ensureValidToken` calls it; whether the
client object carries that method is the `hasRefreshTokenMethod` field of
the environment (`false` for the class as written), and calling the missing
method raises a `TypeError`.
-/

/-- Constant `CONSTANTS.API.MAX_RESULTS` (also the playlist size cap used by
the eviction step). -/
def MAX_RESULTS : Nat := 20

/-- Constant `CONSTANTS.API.RETRY.MAX_ATTEMPTS`. -/
def MAX_ATTEMPTS : Nat := 3

/-- Constant `CONSTANTS.API.RETRY.INITIAL_DELAY` (milliseconds). -/
def INITIAL_DELAY : Nat := 1000

/-- Constant `CONSTANTS.API.RETRY.MAX_DELAY` (milliseconds). -/
def MAX_DELAY : Nat := 10000

/-- Constant `CONSTANTS.PLAYLIST.TITLE`. -/
def PLAYLIST_TITLE : String := "Daily Music Updates"

/-- Constant `CONSTANTS.PLAYLIST.DESCRIPTION`. -/
def PLAYLIST_DESCRIPTION : String :=
  "Automatically updated playlist with latest music from subscribed channels"

/-- Constant `CONSTANTS.PLAYLIST.PRIVACY`. -/
def PLAYLIST_PRIVACY : String := "private"

/-- The characters of a string, lowercased: the alphabet on which the
case-insensitive (`/i`) regular expressions of the source operate. -/
def lowerChars (s : String) : List Char := s.data.map Char.toLower

/-- `s.startsWith(pre)` of JavaScript, on the characters of the strings. -/
def strStartsWith (s pre : String) : Bool := pre.data.isPrefixOf s.data

/-- Emptiness of a string, on its characters. -/
def strIsEmpty (s : String) : Bool := s.data.isEmpty

/-- Whether `pat` occurs as a contiguous subsequence of `hay`. -/
def containsSeq (pat : List Char) : List Char → Bool
  | [] => pat.isEmpty
  | c :: t => pat.isPrefixOf (c :: t) || containsSeq pat t

/-- Semantics of testing one of the literal patterns of
`CONSTANTS.VIDEO.INCLUDE_PATTERNS` against a title: the pattern text occurs
in the title, compared case-insensitively (the `/i` flag). -/
def patternTest (pat title : String) : Bool :=
  containsSeq (lowerChars pat) (lowerChars title)

/-- `CONSTANTS.VIDEO.INCLUDE_PATTERNS = [/\[MV\]/i, /\[Official Audio\]/i]`,
as the literal texts the two regexes match. -/
def INCLUDE_PATTERNS : List String := ["[MV]", "[Official Audio]"]

/-- `INCLUDE_PATTERNS.some(pattern => pattern.test(title))`. -/
def matchesInclude (title : String) : Bool :=
  INCLUDE_PATTERNS.any fun pat => patternTest pat title

/-- A video as built by `VideoCollector.getLatestVideos` from one search
result (`id.videoId`, `snippet.title`, `snippet.channelTitle`,
`snippet.publishedAt`); `publishedAt` is modelled as an integer timestamp. -/
structure Video where
  id : String
  title : String
  channelName : String
  publishedAt : Int
  deriving Repr, DecidableEq

/-- One playlist membership record as the remote service stores it:
`entryId` is the playlist-item id (`item.id` in the source), `videoId` is
`item.snippet.resourceId.videoId`. -/
structure Entry where
  entryId : Nat
  videoId : String
  title : String
  publishedAt : Int
  deriving Repr, DecidableEq

/-- The remote playlist: its membership records in playlist order, plus a
counter supplying fresh playlist-item ids for inserts. -/
structure PlaylistState where
  entries : List Entry
  nextId : Nat
  deriving Repr, DecidableEq

/-- Errors a run can raise. -/
inductive JsError where
  | missingEnvVars
  | invalidChannelId
  | invalidPlaylistId
  | missingChannelId
  | typeErrorNoRefreshMethod
  | lookupFailed
  | createFailed
  | listFailed
  | insertFailed (videoId : String)
  | deleteFailed (entryId : Nat)
  deriving Repr, DecidableEq

/-- Outcome environment for the remote API: which calls fail (persistently,
i.e. after the retry wrapper is exhausted) during the run, whether the
client object defines `refreshTokenIfNeeded`, and the id the service
assigns to a newly created playlist. -/
structure ApiEnv where
  hasRefreshTokenMethod : Bool
  lookupFails : Bool
  createFails : Bool
  listFails : Bool
  insertFails : String → Bool
  deleteFails : Nat → Bool
  searchFails : Bool
  newPlaylistId : String

/-- An environment in which every remote call succeeds and the client is
equipped with a `refreshTokenIfNeeded` method. -/
def ApiEnv.ok : ApiEnv where
  hasRefreshTokenMethod := true
  lookupFails := false
  createFails := false
  listFails := false
  insertFails := fun _ => false
  deleteFails := fun _ => false
  searchFails := false
  newPlaylistId := "PLnew"

/-- Remote calls issued by `getOrCreatePlaylist`. -/
inductive ApiCall where
  | playlistsList (playlistId : String)
  | playlistsInsert (title descr privacy : String)
  deriving Repr, DecidableEq

/-- `PlaylistManager.ensureValidToken`: calls
`this.youtubeClient.refreshTokenIfNeeded()`.  When the client does not
define that method the call raises a `TypeError`. -/
def ensureValidToken (env : ApiEnv) : Except JsError Unit :=
  if env.hasRefreshTokenMethod then .ok () else .error .typeErrorNoRefreshMethod

/-- The `playlists.insert` branch of `getOrCreatePlaylist`: one creation
call with the configured title, description and privacy status. -/
def createPlaylistCall (env : ApiEnv) (calls : List ApiCall) :
    Except JsError String × List ApiCall :=
  let calls1 := calls ++ [ApiCall.playlistsInsert PLAYLIST_TITLE PLAYLIST_DESCRIPTION PLAYLIST_PRIVACY]
  if env.createFails then (.error .createFailed, calls1) else (.ok env.newPlaylistId, calls1)

/-- `PlaylistManager.getOrCreatePlaylist`: refresh the token, then if a
playlist id is configured look it up and return it, falling back to
creation when the lookup fails; with no configured id, create directly.
The catch block rethrows every error.  Returns the result together with the
remote calls made. -/
def getOrCreatePlaylist (env : ApiEnv) (configuredId : Option String) :
    Except JsError String × List ApiCall :=
  match ensureValidToken env with
  | .error e => (.error e, [])
  | .ok _ =>
    match configuredId with
    | some pid =>
      if strIsEmpty pid then createPlaylistCall env []
      else if env.lookupFails then createPlaylistCall env [ApiCall.playlistsList pid]
      else (.ok pid, [ApiCall.playlistsList pid])
    | none => createPlaylistCall env []

/-- `PlaylistManager.getPlaylistItems`: serve from the cache when present;
otherwise refresh the token and list the playlist with
`maxResults: CONSTANTS.API.MAX_RESULTS` (a single page of at most 20
items, no pagination), caching the result.  Every error is caught and an
empty list returned, without populating the cache. -/
def getPlaylistItems (env : ApiEnv) (st : PlaylistState) (cache : Option (List Entry)) :
    List Entry × Option (List Entry) :=
  match cache with
  | some items => (items, some items)
  | none =>
    match ensureValidToken env with
    | .error _ => ([], none)
    | .ok _ =>
      if env.listFails then ([], none)
      else
        let items := st.entries.take MAX_RESULTS
        (items, some items)

/-- Remote effect of `PlaylistManager.addVideoToPlaylist` (a
`playlistItems.insert` with no explicit position): a new membership record
appended at the end of the playlist, with a fresh playlist-item id. -/
def addVideoToPlaylist (st : PlaylistState) (v : Video) : PlaylistState :=
  { entries := st.entries ++
      [{ entryId := st.nextId, videoId := v.id, title := v.title, publishedAt := v.publishedAt }],
    nextId := st.nextId + 1 }

/-- Remote effect of `playlistItems.delete` on a playlist-item id. -/
def deletePlaylistEntry (st : PlaylistState) (eid : Nat) : PlaylistState :=
  { st with entries := st.entries.eraseP fun en => en.entryId == eid }

/-- The insert loop of `updatePlaylistItems` over `videosToAdd`: each
insert is wrapped in the retry helper but not in a per-item catch, so a
(persistently) failing insert aborts the loop with that error; successful
inserts before the failure keep their remote effect.  Returns the new
remote state, the video ids inserted in order, and the aborting error if
any. -/
def insertLoop (env : ApiEnv) : PlaylistState → List Video →
    PlaylistState × List String × Option JsError
  | st, [] => (st, [], none)
  | st, v :: rest =>
    if env.insertFails v.id then (st, [], some (.insertFailed v.id))
    else
      let st1 := addVideoToPlaylist st v
      let r := insertLoop env st1 rest
      (r.1, v.id :: r.2.1, r.2.2)

/-- The delete loop of `updatePlaylistItems` over `itemsToRemove`: like the
insert loop, a failing delete aborts with its error. -/
def deleteLoop (env : ApiEnv) : PlaylistState → List Entry →
    PlaylistState × List Nat × Option JsError
  | st, [] => (st, [], none)
  | st, item :: rest =>
    if env.deleteFails item.entryId then (st, [], some (.deleteFailed item.entryId))
    else
      let st1 := deletePlaylistEntry st item.entryId
      let r := deleteLoop env st1 rest
      (r.1, item.entryId :: r.2.1, r.2.2)

/-- Result of one `updatePlaylistItems` call: the remote playlist state it
leaves behind, the playlist-items cache it leaves behind, the inserts and
deletes it performed, and the error it threw, if any. -/
structure UpdateResult where
  state : PlaylistState
  cache : Option (List Entry)
  inserts : List String
  deletes : List Nat
  err : Option JsError
  deriving Repr, DecidableEq

/-- `PlaylistManager.updatePlaylistItems`: refresh the token, fetch the
existing items (one page of at most 20), compute `videosToAdd` as the new
videos whose video id is not among the fetched items' video ids, insert
them in order, then if `existingItems.length + videosToAdd.length`
exceeds `MAX_RESULTS` delete the first `total - MAX_RESULTS` items of the
fetched existing list.  On success the cache entry for the playlist is
dropped; an error propagates out of the method (logged and rethrown). -/
def updatePlaylistItems (env : ApiEnv) (st : PlaylistState) (cache : Option (List Entry))
    (newVideos : List Video) : UpdateResult :=
  match ensureValidToken env with
  | .error e => { state := st, cache := cache, inserts := [], deletes := [], err := some e }
  | .ok _ =>
    let fetched := getPlaylistItems env st cache
    let existingItems := fetched.1
    let cache1 := fetched.2
    let existingVideoIds := existingItems.map Entry.videoId
    let videosToAdd := newVideos.filter fun v => !(existingVideoIds.contains v.id)
    let ins := insertLoop env st videosToAdd
    match ins.2.2 with
    | some e =>
      { state := ins.1, cache := cache1, inserts := ins.2.1, deletes := [], err := some e }
    | none =>
      let totalItems := existingItems.length + videosToAdd.length
      if MAX_RESULTS < totalItems then
        let itemsToRemove := existingItems.take (totalItems - MAX_RESULTS)
        let del := deleteLoop env ins.1 itemsToRemove
        match del.2.2 with
        | some e =>
          { state := del.1, cache := cache1, inserts := ins.2.1, deletes := del.2.1,
            err := some e }
        | none =>
          { state := del.1, cache := none, inserts := ins.2.1, deletes := del.2.1, err := none }
      else
        { state := ins.1, cache := none, inserts := ins.2.1, deletes := [], err := none }

/-- The page-accumulation loop of `VideoCollector.getLatestVideos`.  The
input is the sequence of search responses the remote API would serve; a
response carries a next-page token exactly when further responses follow.
The loop stops when 20 post-filter videos are accumulated, when five pages
have been consumed, when a response has no items, or when no next-page
token is present. -/
def collectVideos : List (List Video) → List Video → Nat → List Video
  | [], videos, _ => videos
  | page :: rest, videos, attempts =>
    if MAX_RESULTS ≤ videos.length ∨ 5 ≤ attempts then videos
    else if page.isEmpty then videos
    else
      let filteredItems := page.filter fun it => matchesInclude it.title
      let videos1 := videos ++ filteredItems.take (MAX_RESULTS - videos.length)
      if rest.isEmpty then videos1
      else collectVideos rest videos1 (attempts + 1)

/-- `VideoCollector.getLatestVideos` of the retrying variant: page through
search results accumulating title-filtered videos, and return at most 20 of
them.  The surrounding try/catch turns any uncaught search failure into an
empty result list. -/
def getLatestVideos (env : ApiEnv) (pages : List (List Video)) : List Video :=
  if env.searchFails then []
  else (collectVideos pages [] 0).take MAX_RESULTS

/-- The environment variables the program reads; `none` models an unset
variable (and an empty string is as falsy as an unset one). -/
structure EnvVars where
  clientId : Option String
  clientSecret : Option String
  channelId : Option String
  playlistId : Option String
  accessToken : Option String
  oauthRefreshToken : Option String
  deriving Repr, DecidableEq

/-- JavaScript falsiness of `process.env[name]`: unset or empty. -/
def envMissing : Option String → Bool
  | none => true
  | some s => strIsEmpty s

/-- `Utils.validateEnvVars` of the retrying variant: all six variables —
including `YOUTUBE_PLAYLIST_ID` — are required; then the channel id must
start with `UC` and a present playlist id must start with `PL`. -/
def validateEnvVars (vars : EnvVars) : Except JsError Unit :=
  if envMissing vars.clientId || envMissing vars.clientSecret || envMissing vars.channelId ||
      envMissing vars.playlistId || envMissing vars.accessToken ||
      envMissing vars.oauthRefreshToken then
    .error .missingEnvVars
  else if !(strStartsWith (vars.channelId.getD "") "UC") then .error .invalidChannelId
  else if !(envMissing vars.playlistId) && !(strStartsWith (vars.playlistId.getD "") "PL") then
    .error .invalidPlaylistId
  else .ok ()

/-- `videos.sort((a, b) => new Date(b.publishedAt) - new Date(a.publishedAt))`:
stable sort by publication timestamp, newest first. -/
def sortVideosDesc (videos : List Video) : List Video :=
  videos.insertionSort fun a b => b.publishedAt ≤ a.publishedAt

/-- Outcome of one whole process run: the exit status (`process.exit(1)` in
the final catch, normal termination otherwise), the final remote state, the
mutations performed and the error that ended the run, if any. -/
structure RunOutcome where
  exitCode : Nat
  state : PlaylistState
  inserts : List String
  deletes : List Nat
  apiCalls : List ApiCall
  err : Option JsError
  deriving Repr, DecidableEq

/-- The main flow `updatePlaylist()` of the retrying variant, composed with
the top-level `.catch` that exits with status 1: construct the client
(which validates the environment variables), get or create the playlist,
fetch the latest videos (an empty result is a successful no-op), sort them
newest-first and reconcile the playlist.  The playlist-items cache of a
fresh `PlaylistManager` is empty. -/
def updatePlaylist (env : ApiEnv) (vars : EnvVars) (st : PlaylistState)
    (pages : List (List Video)) : RunOutcome :=
  match validateEnvVars vars with
  | .error e =>
    { exitCode := 1, state := st, inserts := [], deletes := [], apiCalls := [], err := some e }
  | .ok _ =>
    let got := getOrCreatePlaylist env vars.playlistId
    match got.1 with
    | .error e =>
      { exitCode := 1, state := st, inserts := [], deletes := [], apiCalls := got.2,
        err := some e }
    | .ok _pid =>
      if envMissing vars.channelId then
        { exitCode := 1, state := st, inserts := [], deletes := [], apiCalls := got.2,
          err := some .missingChannelId }
      else
        let videos := getLatestVideos env pages
        if videos.isEmpty then
          { exitCode := 0, state := st, inserts := [], deletes := [], apiCalls := got.2,
            err := none }
        else
          let r := updatePlaylistItems env st none (sortVideosDesc videos)
          match r.err with
          | some e =>
            { exitCode := 1, state := r.state, inserts := r.inserts, deletes := r.deletes,
              apiCalls := got.2, err := some e }
          | none =>
            { exitCode := 0, state := r.state, inserts := r.inserts, deletes := r.deletes,
              apiCalls := got.2, err := none }

namespace Utils

/-- One step of `Utils.retry`, with `fuel = maxAttempts - attempt`.  The
`k`-th call of the wrapped function (0-based `attempt`) either returns,
or fails: the failure increments the attempt counter and, unless the
counter reached `maxAttempts` or the failure is not retryable, sleeps
`min(INITIAL_DELAY * 2^(attempt-1), MAX_DELAY)` milliseconds (with the
incremented counter) and loops.  Returns the result (`.error none` for the
`throw lastError` with no attempt made), the number of calls made and the
delays slept, in order. -/
def retryGo {E A : Type} (f : Nat → Except E A) (shouldRetryOn : E → Bool) (maxAttempts : Nat) :
    Nat → Nat → Except (Option E) A × Nat × List Nat
  | 0, _ => (.error none, 0, [])
  | fuel + 1, attempt =>
    match f attempt with
    | .ok a => (.ok a, 1, [])
    | .error e =>
      if attempt + 1 = maxAttempts ∨ shouldRetryOn e = false then (.error (some e), 1, [])
      else
        let d := min (INITIAL_DELAY * 2 ^ attempt) MAX_DELAY
        let r := retryGo f shouldRetryOn maxAttempts fuel (attempt + 1)
        (r.1, r.2.1 + 1, d :: r.2.2)

/-- `Utils.retry(fn, context, maxAttempts, shouldRetry)`, with the
successive outcomes of `fn` given as a function of the 0-based call
index. -/
def retry {E A : Type} (f : Nat → Except E A) (shouldRetryOn : E → Bool) (maxAttempts : Nat) :
    Except (Option E) A × Nat × List Nat :=
  retryGo f shouldRetryOn maxAttempts maxAttempts 0

end Utils

/-! ## Characterization of the loops -/

/-- The membership records created by inserting the given videos in order,
starting from the given fresh-id counter. -/
def newEntriesFrom (n : Nat) : List Video → List Entry
  | [] => []
  | v :: rest =>
    { entryId := n, videoId := v.id, title := v.title, publishedAt := v.publishedAt } ::
      newEntriesFrom (n + 1) rest

/-- Remote state after inserting a list of videos in order. -/
def stAfterInserts : PlaylistState → List Video → PlaylistState
  | st, [] => st
  | st, v :: rest => stAfterInserts (addVideoToPlaylist st v) rest

/-- Remote state after deleting a list of playlist-item ids in order. -/
def stAfterDeletes : PlaylistState → List Nat → PlaylistState
  | st, [] => st
  | st, eid :: rest => stAfterDeletes (deletePlaylistEntry st eid) rest

theorem newEntriesFrom_length (vs : List Video) : ∀ n, (newEntriesFrom n vs).length = vs.length := by
  induction vs with
  | nil => intro n; rfl
  | cons v rest ih => intro n; simp [newEntriesFrom, ih]

theorem newEntriesFrom_map_videoId (vs : List Video) :
    ∀ n, (newEntriesFrom n vs).map Entry.videoId = vs.map Video.id := by
  induction vs with
  | nil => intro n; rfl
  | cons v rest ih => intro n; simp [newEntriesFrom, ih]

theorem stAfterInserts_eq (vs : List Video) : ∀ st : PlaylistState,
    stAfterInserts st vs =
      { entries := st.entries ++ newEntriesFrom st.nextId vs, nextId := st.nextId + vs.length } := by
  induction vs with
  | nil => intro st; simp [stAfterInserts, newEntriesFrom]
  | cons v rest ih =>
    intro st
    simp only [stAfterInserts, ih, addVideoToPlaylist, newEntriesFrom, PlaylistState.mk.injEq]
    refine ⟨by simp, by simp [List.length_cons]; omega⟩

theorem insertLoop_ok (env : ApiEnv) (vs : List Video)
    (h : ∀ v ∈ vs, env.insertFails v.id = false) : ∀ st : PlaylistState,
    insertLoop env st vs = (stAfterInserts st vs, vs.map Video.id, none) := by
  induction vs with
  | nil => intro st; rfl
  | cons v rest ih =>
    intro st
    have hv : env.insertFails v.id = false := h v (List.mem_cons_self v rest)
    have hrest : ∀ u ∈ rest, env.insertFails u.id = false := fun u hu => h u (List.mem_cons_of_mem v hu)
    simp [insertLoop, hv, ih hrest, stAfterInserts]

theorem insertLoop_fail (env : ApiEnv) (pre : List Video) (v : Video) (post : List Video)
    (hpre : ∀ u ∈ pre, env.insertFails u.id = false) (hv : env.insertFails v.id = true) :
    ∀ st : PlaylistState,
    insertLoop env st (pre ++ v :: post) =
      (stAfterInserts st pre, pre.map Video.id, some (.insertFailed v.id)) := by
  induction pre with
  | nil => intro st; simp [insertLoop, hv, stAfterInserts]
  | cons u rest ih =>
    intro st
    have hu : env.insertFails u.id = false := hpre u (List.mem_cons_self u rest)
    have hrest : ∀ w ∈ rest, env.insertFails w.id = false := fun w hw => hpre w (List.mem_cons_of_mem u hw)
    simp [insertLoop, hu, ih hrest, stAfterInserts]

theorem deleteLoop_ok (env : ApiEnv) (items : List Entry)
    (h : ∀ it ∈ items, env.deleteFails it.entryId = false) : ∀ st : PlaylistState,
    deleteLoop env st items = (stAfterDeletes st (items.map Entry.entryId), items.map Entry.entryId, none) := by
  induction items with
  | nil => intro st; rfl
  | cons it rest ih =>
    intro st
    have hit : env.deleteFails it.entryId = false := h it (List.mem_cons_self it rest)
    have hrest : ∀ u ∈ rest, env.deleteFails u.entryId = false := fun u hu => h u (List.mem_cons_of_mem it hu)
    simp [deleteLoop, hit, ih hrest, stAfterDeletes]

theorem stAfterDeletes_front (pre : List Entry) : ∀ (st : PlaylistState) (suf : List Entry),
    st.entries = pre ++ suf →
    stAfterDeletes st (pre.map Entry.entryId) = { entries := suf, nextId := st.nextId } := by
  induction pre with
  | nil =>
    intro st suf h
    cases st with
    | mk es n =>
      simp only [List.nil_append] at h
      simp [stAfterDeletes, h]
  | cons e rest ih =>
    intro st suf h
    simp only [List.map_cons, stAfterDeletes]
    have hp : (fun en : Entry => en.entryId == e.entryId) e = true := by simp
    have herase : deletePlaylistEntry st e.entryId = { entries := rest ++ suf, nextId := st.nextId } := by
      simp [deletePlaylistEntry, h, List.eraseP_cons_of_pos hp]
    rw [herase]
    exact ih _ suf rfl

theorem take_append_drop_len {α : Type} (l : List α) (j : Nat) :
    l.take j ++ l.drop ((l.take j).length) = l := by
  rcases le_total j l.length with h | h
  · rw [List.length_take, min_eq_left h, List.take_append_drop]
  · rw [List.length_take, min_eq_right h, List.drop_length, List.take_of_length_le h,
      List.append_nil]

/-- Behaviour of one `updatePlaylistItems` call in an environment where the
token-refresh collaborator works and no remote call fails, starting with an
empty cache: the videos whose ids are not among the fetched page are
appended, and when the fetched page plus the additions exceed the cap the
first `total - MAX_RESULTS` fetched entries are deleted (in playlist
order). -/
theorem updatePlaylistItems_ok_spec (env : ApiEnv) (st : PlaylistState) (newVideos : List Video)
    (fetched removed : List Entry) (toAdd : List Video)
    (hRef : env.hasRefreshTokenMethod = true) (hList : env.listFails = false)
    (hIns : ∀ s, env.insertFails s = false) (hDel : ∀ n, env.deleteFails n = false)
    (hfetched : fetched = st.entries.take MAX_RESULTS)
    (htoAdd : toAdd = newVideos.filter fun v => !((fetched.map Entry.videoId).contains v.id))
    (hremoved : removed = if MAX_RESULTS < fetched.length + toAdd.length
      then fetched.take (fetched.length + toAdd.length - MAX_RESULTS) else []) :
    (updatePlaylistItems env st none newVideos).err = none ∧
    (updatePlaylistItems env st none newVideos).cache = none ∧
    (updatePlaylistItems env st none newVideos).inserts = toAdd.map Video.id ∧
    (updatePlaylistItems env st none newVideos).deletes = removed.map Entry.entryId ∧
    (updatePlaylistItems env st none newVideos).state.entries =
      st.entries.drop removed.length ++ newEntriesFrom st.nextId toAdd ∧
    (updatePlaylistItems env st none newVideos).state.nextId = st.nextId + toAdd.length := by
  subst hremoved
  subst htoAdd
  subst hfetched
  have hens : ensureValidToken env = Except.ok () := by simp [ensureValidToken, hRef]
  have hget : getPlaylistItems env st none =
      (st.entries.take MAX_RESULTS, some (st.entries.take MAX_RESULTS)) := by
    simp [getPlaylistItems, hens, hList]
  simp only [updatePlaylistItems, hens, hget]
  set A := st.entries.take MAX_RESULTS with hA
  set T := newVideos.filter (fun v => !((A.map Entry.videoId).contains v.id)) with hT
  rw [insertLoop_ok env T (fun v _ => hIns v.id) st]
  dsimp only
  by_cases htot : MAX_RESULTS < A.length + T.length
  · simp only [if_pos htot]
    set k := A.length + T.length - MAX_RESULTS with hk
    set R := A.take k with hR
    rw [deleteLoop_ok env R (fun it _ => hDel it.entryId) (stAfterInserts st T)]
    dsimp only
    have hRtake : R = st.entries.take (k ⊓ MAX_RESULTS) := by rw [hR, hA, List.take_take]
    have hsplit : st.entries = R ++ st.entries.drop R.length := by
      conv_lhs => rw [← take_append_drop_len st.entries (k ⊓ MAX_RESULTS)]
      rw [← hRtake]
    have hpre : (stAfterInserts st T).entries =
        R ++ (st.entries.drop R.length ++ newEntriesFrom st.nextId T) := by
      rw [stAfterInserts_eq]
      show st.entries ++ newEntriesFrom st.nextId T = _
      conv_lhs => rw [hsplit]
      rw [List.append_assoc]
    rw [stAfterDeletes_front R _ _ hpre]
    dsimp only
    refine ⟨rfl, rfl, rfl, rfl, rfl, ?_⟩
    rw [stAfterInserts_eq]
  · simp only [if_neg htot]
    simp [stAfterInserts_eq]

/-! ## Concrete fixtures -/

/-- Entry `i` of the sample playlist: distinct ids, `publishedAt = i`, so
the playlist is ordered oldest first. -/
def sampleEntry (i : Nat) : Entry :=
  { entryId := i, videoId := "v" ++ Nat.repr i, title := "t" ++ Nat.repr i,
    publishedAt := (i : Int) }

/-- A playlist of `n` sample entries in playlist order. -/
def samplePlaylist (n : Nat) : PlaylistState :=
  { entries := (List.range n).map sampleEntry, nextId := 1000 }

/-- Candidate `i`: a fresh video newer than every sample entry. -/
def sampleCandidate (i : Nat) : Video :=
  { id := "new" ++ Nat.repr i, title := "[MV] sample", channelName := "ch",
    publishedAt := (1000 + i : Int) }

/-- `n` fresh candidates. -/
def sampleCandidates (n : Nat) : List Video := (List.range n).map sampleCandidate

/-- A candidate whose video id equals the id of sample entry 0. -/
def reVideo : Video := { id := "v0", title := "[MV] re", channelName := "ch", publishedAt := 500 }

/-- A candidate whose video id is new to the sample playlist. -/
def freshVideo : Video := { id := "w1", title := "[MV] w", channelName := "ch", publishedAt := 600 }

/-- A candidate used twice to build a duplicated candidate list. -/
def dupVideo : Video := { id := "dup", title := "[MV] dup", channelName := "ch", publishedAt := 1 }

/-- A fully configured set of environment variables. -/
def varsOK : EnvVars :=
  { clientId := some "ci", clientSecret := some "cs", channelId := some "UCabc",
    playlistId := some "PLabc", accessToken := some "at", oauthRefreshToken := some "rt" }

/-- The same configuration with no playlist id. -/
def varsNoPlaylist : EnvVars := { varsOK with playlistId := none }

/-- A working environment whose candidate search raises an unrecovered
error. -/
def envSearchFail : ApiEnv := { ApiEnv.ok with searchFails := true }

/-- A working environment in which inserting the video with id `"dup"`
fails even after retries. -/
def envInsertFail : ApiEnv := { ApiEnv.ok with insertFails := fun s => s == "dup" }

/-- A working environment whose client lacks `refreshTokenIfNeeded`, as the
source's `YouTubeClient` does. -/
def envNoRefresh : ApiEnv := { ApiEnv.ok with hasRefreshTokenMethod := false }

/-- A page of search results containing one matching video. -/
def samplePage : List Video :=
  [{ id := "q1", title := "[MV] fresh song", channelName := "ch", publishedAt := 700 }]

/-! ## C1: eviction -/

/-- C1, as stated, is false: with 25 existing entries and 5 new candidates
the code fetches only 20 existing entries (`maxResults` is 20, no
pagination), performs 5 inserts and only 5 deletions — not 10 — and the
deletions are the first five fetched entries in playlist order; 25 entries
remain, not 20. -/
theorem updatePlaylistItems_eviction_cx :
    (updatePlaylistItems ApiEnv.ok (samplePlaylist 25) none (sampleCandidates 5)).deletes
        = [0, 1, 2, 3, 4] ∧
    (updatePlaylistItems ApiEnv.ok (samplePlaylist 25) none (sampleCandidates 5)).deletes.length
        ≠ 10 ∧
    (updatePlaylistItems ApiEnv.ok (samplePlaylist 25) none (sampleCandidates 5)).state.entries.length
        = 25 := by
  refine ⟨by decide, by decide, by decide⟩

/-- C1 (amended): when the fetched existing page (at most 20 entries) plus
the deduplicated additions exceed `MAX_RESULTS`, the entries deleted are
exactly the first `total - MAX_RESULTS` entries of the fetched page, in
playlist order — `publishedAt` is not consulted and newly inserted entries
are never deleted. -/
theorem updatePlaylistItems_evicts_fetched_head (env : ApiEnv) (st : PlaylistState)
    (newVideos : List Video) (fetched : List Entry) (toAdd : List Video)
    (hRef : env.hasRefreshTokenMethod = true) (hList : env.listFails = false)
    (hIns : ∀ s, env.insertFails s = false) (hDel : ∀ n, env.deleteFails n = false)
    (hfetched : fetched = st.entries.take MAX_RESULTS)
    (htoAdd : toAdd = newVideos.filter fun v => !((fetched.map Entry.videoId).contains v.id))
    (htot : MAX_RESULTS < fetched.length + toAdd.length) :
    (updatePlaylistItems env st none newVideos).deletes =
      (fetched.take (fetched.length + toAdd.length - MAX_RESULTS)).map Entry.entryId ∧
    (updatePlaylistItems env st none newVideos).inserts = toAdd.map Video.id ∧
    (updatePlaylistItems env st none newVideos).err = none := by
  obtain ⟨herr, -, hins, hdel, -, -⟩ :=
    updatePlaylistItems_ok_spec env st newVideos fetched _ toAdd hRef hList hIns hDel hfetched htoAdd rfl
  rw [if_pos htot] at hdel
  exact ⟨hdel, hins, herr⟩

/-- Witness for the amended C1 at the 25-existing/5-new scenario. -/
theorem updatePlaylistItems_evicts_fetched_head_witness :
    MAX_RESULTS <
      ((samplePlaylist 25).entries.take MAX_RESULTS).length +
        ((sampleCandidates 5).filter fun v =>
          !((((samplePlaylist 25).entries.take MAX_RESULTS).map Entry.videoId).contains v.id)).length ∧
    (updatePlaylistItems ApiEnv.ok (samplePlaylist 25) none (sampleCandidates 5)).deletes =
      [0, 1, 2, 3, 4] :=
  ⟨by decide,
    ((updatePlaylistItems_evicts_fetched_head ApiEnv.ok (samplePlaylist 25) (sampleCandidates 5)
      _ _ rfl rfl (fun _ => rfl) (fun _ => rfl) rfl rfl (by decide)).1).trans (by decide)⟩

/-! ## C2: size invariant -/

/-- C2, as stated, is false: a playlist that already holds 21 entries still
holds 21 after a completed run with one fresh candidate, because
`getPlaylistItems` fetches only the first 20 entries and the eviction count
is computed from that page. -/
theorem updatePlaylistItems_size_cx :
    (updatePlaylistItems ApiEnv.ok (samplePlaylist 21) none [freshVideo]).err = none ∧
    (updatePlaylistItems ApiEnv.ok (samplePlaylist 21) none [freshVideo]).state.entries.length = 21 ∧
    ¬((updatePlaylistItems ApiEnv.ok (samplePlaylist 21) none
        [freshVideo]).state.entries.length ≤ MAX_RESULTS) := by
  refine ⟨by decide, by decide, by decide⟩

/-- C2 (amended): when the initial playlist has at most `MAX_RESULTS`
entries (so the single fetched page sees all of them) and at most
`MAX_RESULTS` candidates are supplied (as the selector guarantees), a
completed run leaves at most `MAX_RESULTS` entries. -/
theorem updatePlaylistItems_size_le (env : ApiEnv) (st : PlaylistState) (newVideos : List Video)
    (hRef : env.hasRefreshTokenMethod = true) (hList : env.listFails = false)
    (hIns : ∀ s, env.insertFails s = false) (hDel : ∀ n, env.deleteFails n = false)
    (hlen : st.entries.length ≤ MAX_RESULTS) (hnv : newVideos.length ≤ MAX_RESULTS) :
    (updatePlaylistItems env st none newVideos).err = none ∧
    (updatePlaylistItems env st none newVideos).state.entries.length ≤ MAX_RESULTS := by
  obtain ⟨herr, -, -, -, hentries, -⟩ :=
    updatePlaylistItems_ok_spec env st newVideos _ _ _ hRef hList hIns hDel rfl rfl rfl
  refine ⟨herr, ?_⟩
  rw [hentries, List.length_append, List.length_drop, newEntriesFrom_length]
  have hTle := List.length_filter_le
    (fun v => !(((st.entries.take MAX_RESULTS).map Entry.videoId).contains v.id)) newVideos
  split
  · simp only [List.length_take] at *
    omega
  · simp only [List.length_nil, List.length_take] at *
    omega

/-- Witness for the amended C2. -/
theorem updatePlaylistItems_size_le_witness :
    (samplePlaylist 19).entries.length ≤ MAX_RESULTS ∧ (sampleCandidates 3).length ≤ MAX_RESULTS ∧
    (updatePlaylistItems ApiEnv.ok (samplePlaylist 19) none
      (sampleCandidates 3)).state.entries.length ≤ MAX_RESULTS :=
  ⟨by decide, by decide,
    (updatePlaylistItems_size_le ApiEnv.ok (samplePlaylist 19) (sampleCandidates 3)
      rfl rfl (fun _ => rfl) (fun _ => rfl) (by decide) (by decide)).2⟩

/-! ## C3: dedup invariant -/

/-- C3, as stated, is false: a candidate list containing the same video id
twice is inserted twice, so the post-run playlist holds two entries with
that video id. -/
theorem updatePlaylistItems_dedup_cx :
    (updatePlaylistItems ApiEnv.ok { entries := [], nextId := 0 } none
        [dupVideo, dupVideo]).err = none ∧
    ¬(((updatePlaylistItems ApiEnv.ok { entries := [], nextId := 0 } none
        [dupVideo, dupVideo]).state.entries.map Entry.videoId).Nodup) := by
  refine ⟨by decide, by decide⟩

/-- C3 (amended): when the initial playlist has at most `MAX_RESULTS`
entries with pairwise distinct video ids and the candidate video ids are
pairwise distinct, a completed run preserves the dedup invariant, and a
candidate whose video id already appears among the existing entries is not
inserted. -/
theorem updatePlaylistItems_dedup (env : ApiEnv) (st : PlaylistState) (newVideos : List Video)
    (hRef : env.hasRefreshTokenMethod = true) (hList : env.listFails = false)
    (hIns : ∀ s, env.insertFails s = false) (hDel : ∀ n, env.deleteFails n = false)
    (hlen : st.entries.length ≤ MAX_RESULTS)
    (hstN : (st.entries.map Entry.videoId).Nodup)
    (hnvN : (newVideos.map Video.id).Nodup) :
    (updatePlaylistItems env st none newVideos).err = none ∧
    ((updatePlaylistItems env st none newVideos).state.entries.map Entry.videoId).Nodup ∧
    (∀ v ∈ newVideos, (st.entries.map Entry.videoId).contains v.id = true →
      ¬ v.id ∈ (updatePlaylistItems env st none newVideos).inserts) := by
  have hfetch : st.entries.take MAX_RESULTS = st.entries := List.take_of_length_le hlen
  obtain ⟨herr, -, hins, -, hentries, -⟩ :=
    updatePlaylistItems_ok_spec env st newVideos _ _ _ hRef hList hIns hDel rfl rfl rfl
  rw [hfetch] at hins hentries
  refine ⟨herr, ?_, ?_⟩
  · rw [hentries, List.map_append, newEntriesFrom_map_videoId, List.nodup_append]
    refine ⟨((List.drop_sublist _ _).map Entry.videoId).nodup hstN,
      ((List.filter_sublist _).map Video.id).nodup hnvN, ?_⟩
    intro a ha1 ha2
    have ha1m : a ∈ st.entries.map Entry.videoId :=
      ((List.drop_sublist _ _).map Entry.videoId).mem ha1
    obtain ⟨v, hv, hva⟩ := List.mem_map.mp ha2
    have hnot : v.id ∉ st.entries.map Entry.videoId := by
      simpa using (List.mem_filter.mp hv).2
    exact hnot (hva ▸ ha1m)
  · intro v hv hcont hmem
    rw [hins] at hmem
    obtain ⟨u, hu, hua⟩ := List.mem_map.mp hmem
    have hupred : u.id ∉ st.entries.map Entry.videoId := by
      simpa using (List.mem_filter.mp hu).2
    have hvmem : v.id ∈ st.entries.map Entry.videoId := by
      simpa using hcont
    exact hupred (hua ▸ hvmem)

/-- Witness for the amended C3: a candidate duplicating an existing entry
is skipped and the invariant is preserved. -/
theorem updatePlaylistItems_dedup_witness :
    ((samplePlaylist 20).entries.map Entry.videoId).Nodup ∧
    (([reVideo, freshVideo].map Video.id).Nodup) ∧
    (((updatePlaylistItems ApiEnv.ok (samplePlaylist 20) none
        [reVideo, freshVideo]).state.entries.map Entry.videoId).Nodup) ∧
    ¬ "v0" ∈ (updatePlaylistItems ApiEnv.ok (samplePlaylist 20) none
        [reVideo, freshVideo]).inserts :=
  ⟨by decide, by decide,
    (updatePlaylistItems_dedup ApiEnv.ok (samplePlaylist 20) [reVideo, freshVideo]
      rfl rfl (fun _ => rfl) (fun _ => rfl) (by decide) (by decide) (by decide)).2.1,
    (updatePlaylistItems_dedup ApiEnv.ok (samplePlaylist 20) [reVideo, freshVideo]
      rfl rfl (fun _ => rfl) (fun _ => rfl) (by decide) (by decide) (by decide)).2.2
      reVideo (by decide) (by decide)⟩

/-! ## C4: idempotence of a second run -/

/-- C4, as stated, is false: after a run that evicts an existing entry
whose video id is among the candidates (here entry `v0`, evicted to make
room while the candidate `v0` itself was skipped as a duplicate), an
immediately repeated run re-inserts that video and evicts again — two
mutations, not zero. -/
theorem updatePlaylistItems_second_run_cx :
    (updatePlaylistItems ApiEnv.ok (samplePlaylist 20) none [reVideo, freshVideo]).err = none ∧
    (updatePlaylistItems ApiEnv.ok
      (updatePlaylistItems ApiEnv.ok (samplePlaylist 20) none [reVideo, freshVideo]).state
      (updatePlaylistItems ApiEnv.ok (samplePlaylist 20) none [reVideo, freshVideo]).cache
      [reVideo, freshVideo]).inserts = ["v0"] ∧
    (updatePlaylistItems ApiEnv.ok
      (updatePlaylistItems ApiEnv.ok (samplePlaylist 20) none [reVideo, freshVideo]).state
      (updatePlaylistItems ApiEnv.ok (samplePlaylist 20) none [reVideo, freshVideo]).cache
      [reVideo, freshVideo]).deletes = [1] ∧
    ¬((updatePlaylistItems ApiEnv.ok
        (updatePlaylistItems ApiEnv.ok (samplePlaylist 20) none [reVideo, freshVideo]).state
        (updatePlaylistItems ApiEnv.ok (samplePlaylist 20) none [reVideo, freshVideo]).cache
        [reVideo, freshVideo]).inserts = [] ∧
      (updatePlaylistItems ApiEnv.ok
        (updatePlaylistItems ApiEnv.ok (samplePlaylist 20) none [reVideo, freshVideo]).state
        (updatePlaylistItems ApiEnv.ok (samplePlaylist 20) none [reVideo, freshVideo]).cache
        [reVideo, freshVideo]).deletes = []) := by
  refine ⟨by decide, by decide, by decide, by decide⟩

/-- C4 (amended): when the first run needs no eviction (in particular when
the initial entries plus the candidates fit under the cap), an immediately
repeated run with the same candidates and no external changes performs zero
mutations and leaves the playlist state unchanged. -/
theorem updatePlaylistItems_idempotent_no_eviction (env : ApiEnv) (st : PlaylistState)
    (newVideos : List Video) (r1 : UpdateResult)
    (hRef : env.hasRefreshTokenMethod = true) (hList : env.listFails = false)
    (hIns : ∀ s, env.insertFails s = false) (hDel : ∀ n, env.deleteFails n = false)
    (hsmall : st.entries.length + newVideos.length ≤ MAX_RESULTS)
    (hr1 : r1 = updatePlaylistItems env st none newVideos) :
    r1.err = none ∧
    (updatePlaylistItems env r1.state r1.cache newVideos).inserts = [] ∧
    (updatePlaylistItems env r1.state r1.cache newVideos).deletes = [] ∧
    (updatePlaylistItems env r1.state r1.cache newVideos).err = none ∧
    (updatePlaylistItems env r1.state r1.cache newVideos).state.entries = r1.state.entries ∧
    (updatePlaylistItems env r1.state r1.cache newVideos).state.nextId = r1.state.nextId := by
  subst hr1
  have hlen : st.entries.length ≤ MAX_RESULTS := le_trans (Nat.le_add_right _ _) hsmall
  have hfetch : st.entries.take MAX_RESULTS = st.entries := List.take_of_length_le hlen
  obtain ⟨herr1, hcache1, hins1, hdel1, hent1, hnext1⟩ :=
    updatePlaylistItems_ok_spec env st newVideos _ _ _ hRef hList hIns hDel rfl rfl rfl
  have htot1 : ¬ MAX_RESULTS < (st.entries.take MAX_RESULTS).length +
      (newVideos.filter fun v =>
        !(((st.entries.take MAX_RESULTS).map Entry.videoId).contains v.id)).length := by
    rw [hfetch]
    have hT1le := List.length_filter_le
      (fun v => !((st.entries.map Entry.videoId).contains v.id)) newVideos
    omega
  rw [if_neg htot1] at hent1
  simp only [List.length_nil, List.drop_zero] at hent1
  rw [hfetch] at hent1
  -- the state the second run starts from
  have hlen1 : (updatePlaylistItems env st none newVideos).state.entries.length ≤ MAX_RESULTS := by
    rw [hent1, List.length_append, newEntriesFrom_length]
    have := List.length_filter_le
      (fun v => !((st.entries.map Entry.videoId).contains v.id)) newVideos
    omega
  have hfetch2 : (updatePlaylistItems env st none newVideos).state.entries.take MAX_RESULTS =
      (updatePlaylistItems env st none newVideos).state.entries := List.take_of_length_le hlen1
  obtain ⟨herr2, hcache2, hins2, hdel2, hent2, hnext2⟩ :=
    updatePlaylistItems_ok_spec env (updatePlaylistItems env st none newVideos).state newVideos
      _ _ _ hRef hList hIns hDel rfl rfl rfl
  rw [hfetch2] at hins2 hdel2 hent2 hnext2
  -- every candidate id already occurs in the post-run playlist
  have htoAdd2 : (newVideos.filter fun v =>
      !(((updatePlaylistItems env st none newVideos).state.entries.map Entry.videoId).contains v.id)) = [] := by
    rw [List.filter_eq_nil_iff]
    intro v hv
    simp only [Bool.not_eq_eq_eq_not, Bool.not_true, Bool.not_eq_false]
    have : v.id ∈ (updatePlaylistItems env st none newVideos).state.entries.map Entry.videoId := by
      rw [hent1, List.map_append, newEntriesFrom_map_videoId, List.mem_append]
      by_cases hmem : v.id ∈ st.entries.map Entry.videoId
      · exact Or.inl hmem
      · refine Or.inr (List.mem_map.mpr ⟨v, ?_, rfl⟩)
        refine List.mem_filter.mpr ⟨hv, ?_⟩
        simpa using hmem
    simpa using this
  rw [htoAdd2] at hins2 hdel2 hent2 hnext2
  have htot2 : ¬ MAX_RESULTS <
      ((updatePlaylistItems env st none newVideos).state.entries).length + ([] : List Video).length := by
    simp only [List.length_nil, Nat.add_zero]
    omega
  rw [if_neg htot2] at hdel2 hent2
  simp only [List.length_nil, List.drop_zero, List.map_nil, newEntriesFrom, List.append_nil,
    Nat.add_zero] at hins2 hdel2 hent2 hnext2
  rw [hcache1]
  exact ⟨herr1, hins2, hdel2, herr2, hent2, hnext2⟩

/-- Witness for the amended C4. -/
theorem updatePlaylistItems_idempotent_no_eviction_witness :
    (samplePlaylist 10).entries.length + (sampleCandidates 5).length ≤ MAX_RESULTS ∧
    (updatePlaylistItems ApiEnv.ok
      (updatePlaylistItems ApiEnv.ok (samplePlaylist 10) none (sampleCandidates 5)).state
      (updatePlaylistItems ApiEnv.ok (samplePlaylist 10) none (sampleCandidates 5)).cache
      (sampleCandidates 5)).inserts = [] ∧
    (updatePlaylistItems ApiEnv.ok
      (updatePlaylistItems ApiEnv.ok (samplePlaylist 10) none (sampleCandidates 5)).state
      (updatePlaylistItems ApiEnv.ok (samplePlaylist 10) none (sampleCandidates 5)).cache
      (sampleCandidates 5)).deletes = [] :=
  ⟨by decide,
    (updatePlaylistItems_idempotent_no_eviction ApiEnv.ok (samplePlaylist 10) (sampleCandidates 5)
      _ rfl rfl (fun _ => rfl) (fun _ => rfl) (by decide) rfl).2.1,
    (updatePlaylistItems_idempotent_no_eviction ApiEnv.ok (samplePlaylist 10) (sampleCandidates 5)
      _ rfl rfl (fun _ => rfl) (fun _ => rfl) (by decide) rfl).2.2.1⟩

/-! ## C5: insert failure handling -/

/-- C5, as stated, is false: when inserting the first candidate fails after
retries, the loop does not continue — the error propagates out of
`updatePlaylistItems` (there is no per-item catch), the remaining candidate
is never inserted and the run reports failure. -/
theorem updatePlaylistItems_insert_failure_cx :
    (updatePlaylistItems envInsertFail { entries := [], nextId := 0 } none
        [dupVideo, freshVideo]).err = some (JsError.insertFailed "dup") ∧
    (updatePlaylistItems envInsertFail { entries := [], nextId := 0 } none
        [dupVideo, freshVideo]).inserts = [] ∧
    ¬ "w1" ∈ (updatePlaylistItems envInsertFail { entries := [], nextId := 0 } none
        [dupVideo, freshVideo]).inserts ∧
    (updatePlaylistItems envInsertFail { entries := [], nextId := 0 } none
        [dupVideo, freshVideo]).deletes = [] := by
  refine ⟨by decide, by decide, by decide, by decide⟩

/-- C5 (amended): a candidate whose insert fails after retries aborts
`updatePlaylistItems` with that error: only the candidates before it are
inserted, the remaining candidates are not attempted, the eviction phase
never runs, and the error is rethrown so a run whose reconciliation fails
exits with status 1 instead of reporting success. -/
theorem updatePlaylistItems_insert_failure_aborts (env : ApiEnv) (st : PlaylistState)
    (newVideos : List Video) (pre : List Video) (v : Video) (post : List Video)
    (hRef : env.hasRefreshTokenMethod = true) (hList : env.listFails = false)
    (hsplit : (newVideos.filter fun u =>
      !(((st.entries.take MAX_RESULTS).map Entry.videoId).contains u.id)) = pre ++ v :: post)
    (hpre : ∀ u ∈ pre, env.insertFails u.id = false) (hv : env.insertFails v.id = true) :
    (updatePlaylistItems env st none newVideos).err = some (.insertFailed v.id) ∧
    (updatePlaylistItems env st none newVideos).inserts = pre.map Video.id ∧
    (updatePlaylistItems env st none newVideos).deletes = [] ∧
    (updatePlaylistItems env st none newVideos).state.entries =
      st.entries ++ newEntriesFrom st.nextId pre ∧
    (∀ (vars : EnvVars) (pages : List (List Video)), validateEnvVars vars = Except.ok () →
      (∃ p, (getOrCreatePlaylist env vars.playlistId).1 = Except.ok p) →
      envMissing vars.channelId = false →
      (getLatestVideos env pages).isEmpty = false →
      sortVideosDesc (getLatestVideos env pages) = newVideos →
      (updatePlaylist env vars st pages).exitCode = 1) := by
  have hens : ensureValidToken env = Except.ok () := by simp [ensureValidToken, hRef]
  have hget : getPlaylistItems env st none =
      (st.entries.take MAX_RESULTS, some (st.entries.take MAX_RESULTS)) := by
    simp [getPlaylistItems, hens, hList]
  have hmain : updatePlaylistItems env st none newVideos =
      { state := stAfterInserts st pre, cache := some (st.entries.take MAX_RESULTS),
        inserts := pre.map Video.id, deletes := [], err := some (.insertFailed v.id) } := by
    simp only [updatePlaylistItems, hens, hget]
    rw [hsplit, insertLoop_fail env pre v post hpre hv st]
  refine ⟨by rw [hmain], by rw [hmain], by rw [hmain], ?_, ?_⟩
  · rw [hmain]
    show (stAfterInserts st pre).entries = _
    rw [stAfterInserts_eq]
  · intro vars pages hvv hgot hch hne hsort
    obtain ⟨p, hp⟩ := hgot
    simp only [updatePlaylist, hvv, hp, hch, hne, hsort, hmain]
    simp

/-- Witness for the amended C5: with the failing candidate first, nothing
is inserted and the error is the failing video's. -/
theorem updatePlaylistItems_insert_failure_aborts_witness :
    envInsertFail.insertFails dupVideo.id = true ∧
    (updatePlaylistItems envInsertFail { entries := [], nextId := 0 } none
        [dupVideo, freshVideo]).err = some (JsError.insertFailed "dup") :=
  ⟨by decide,
    ((updatePlaylistItems_insert_failure_aborts envInsertFail { entries := [], nextId := 0 }
      [dupVideo, freshVideo] [] dupVideo [freshVideo]
      rfl rfl (by decide) (by intro u hu; cases hu) (by decide)).1).trans (by decide)⟩

/-! ## C6: process exit codes -/

/-- C6, as stated, is false: an unrecovered error during the candidate
search is caught inside `getLatestVideos` and turned into an empty result,
so the run exits 0 as a successful no-op with zero mutations instead of
exiting non-zero. -/
theorem updatePlaylist_search_error_cx :
    (updatePlaylist envSearchFail varsOK (samplePlaylist 20) [samplePage]).exitCode = 0 ∧
    (updatePlaylist envSearchFail varsOK (samplePlaylist 20) [samplePage]).inserts = [] ∧
    (updatePlaylist envSearchFail varsOK (samplePlaylist 20) [samplePage]).deletes = [] ∧
    (updatePlaylist envSearchFail varsOK (samplePlaylist 20) [samplePage]).err = none := by
  refine ⟨by decide, by decide, by decide, by decide⟩

/-- C6 (amended): the run exits 0 exactly when no error propagates to the
top level — including the no-matching-videos case and the case of an
unrecovered search failure, which `getLatestVideos` swallows into an empty
list; configuration errors, playlist lookup/creation errors and
reconciliation errors exit 1. -/
theorem updatePlaylist_exit_code_spec (env : ApiEnv) (vars : EnvVars) (st : PlaylistState)
    (pages : List (List Video)) :
    (∀ e, validateEnvVars vars = Except.error e →
      (updatePlaylist env vars st pages).exitCode = 1) ∧
    (∀ e, validateEnvVars vars = Except.ok () →
      (getOrCreatePlaylist env vars.playlistId).1 = Except.error e →
      (updatePlaylist env vars st pages).exitCode = 1) ∧
    (validateEnvVars vars = Except.ok () →
      (∃ p, (getOrCreatePlaylist env vars.playlistId).1 = Except.ok p) →
      envMissing vars.channelId = false →
      (getLatestVideos env pages).isEmpty = true →
      (updatePlaylist env vars st pages).exitCode = 0 ∧
      (updatePlaylist env vars st pages).inserts = [] ∧
      (updatePlaylist env vars st pages).deletes = []) ∧
    (env.searchFails = true → getLatestVideos env pages = []) ∧
    (validateEnvVars vars = Except.ok () →
      (∃ p, (getOrCreatePlaylist env vars.playlistId).1 = Except.ok p) →
      envMissing vars.channelId = false →
      (getLatestVideos env pages).isEmpty = false →
      ((updatePlaylistItems env st none (sortVideosDesc (getLatestVideos env pages))).err = none →
        (updatePlaylist env vars st pages).exitCode = 0) ∧
      (∀ e, (updatePlaylistItems env st none (sortVideosDesc (getLatestVideos env pages))).err = some e →
        (updatePlaylist env vars st pages).exitCode = 1)) := by
  refine ⟨?_, ?_, ?_, ?_, ?_⟩
  · intro e h
    simp [updatePlaylist, h]
  · intro e hok herr
    simp [updatePlaylist, hok, herr]
  · intro hok hgot hch hemp
    obtain ⟨p, hp⟩ := hgot
    refine ⟨?_, ?_, ?_⟩ <;> simp [updatePlaylist, hok, hp, hch, hemp]
  · intro h
    simp [getLatestVideos, h]
  · intro hok hgot hch hne
    obtain ⟨p, hp⟩ := hgot
    constructor
    · intro h
      simp [updatePlaylist, hok, hp, hch, hne, h]
    · intro e h
      simp [updatePlaylist, hok, hp, hch, hne, h]

/-- Witness for the amended C6: a failed search exits 0 and a failed
reconciliation (insert failure) exits 1. -/
theorem updatePlaylist_exit_code_spec_witness :
    envSearchFail.searchFails = true ∧
    getLatestVideos envSearchFail [samplePage] = [] ∧
    (updatePlaylist envSearchFail varsOK (samplePlaylist 20) [samplePage]).exitCode = 0 ∧
    (updatePlaylist ApiEnv.ok varsOK (samplePlaylist 5) [samplePage]).exitCode = 0 :=
  ⟨by decide,
    (updatePlaylist_exit_code_spec envSearchFail varsOK (samplePlaylist 20) [samplePage]).2.2.2.1 rfl,
    ((updatePlaylist_exit_code_spec envSearchFail varsOK (samplePlaylist 20) [samplePage]).2.2.1
      rfl ⟨"PLabc", rfl⟩ (by decide) (by decide)).1,
    ((updatePlaylist_exit_code_spec ApiEnv.ok varsOK (samplePlaylist 5) [samplePage]).2.2.2.2
      rfl ⟨"PLabc", rfl⟩ (by decide) (by decide)).1 (by decide)⟩

/-! ## C7: playlist auto-creation -/

/-- C7, as stated, is false: with no playlist identifier configured the run
dies in `Utils.validateEnvVars` (which lists `YOUTUBE_PLAYLIST_ID` among
the required variables) inside the `YouTubeClient` constructor, exits 1 and
makes no remote call at all — no playlist is created. -/
theorem updatePlaylist_missing_playlist_id_cx :
    (updatePlaylist ApiEnv.ok varsNoPlaylist (samplePlaylist 0) [samplePage]).exitCode = 1 ∧
    (updatePlaylist ApiEnv.ok varsNoPlaylist (samplePlaylist 0) [samplePage]).apiCalls = [] ∧
    (updatePlaylist ApiEnv.ok varsNoPlaylist (samplePlaylist 0) [samplePage]).err =
      some JsError.missingEnvVars := by
  refine ⟨by decide, by decide, by decide⟩

/-- C7 (amended): a missing playlist identifier is a fatal configuration
error — the run exits 1 before any remote call.  `getOrCreatePlaylist`
itself, when reached with no configured identifier (or with an identifier
whose lookup fails), calls the playlist-creation endpoint exactly once with
the configured title, description and privacy and returns the new id. -/
theorem getOrCreatePlaylist_creation_spec (env : ApiEnv) (vars : EnvVars) (st : PlaylistState)
    (pages : List (List Video)) (pid : String) :
    (vars.playlistId = none →
      (updatePlaylist env vars st pages).exitCode = 1 ∧
      (updatePlaylist env vars st pages).apiCalls = []) ∧
    (env.hasRefreshTokenMethod = true → env.createFails = false →
      getOrCreatePlaylist env none =
        (Except.ok env.newPlaylistId,
          [ApiCall.playlistsInsert PLAYLIST_TITLE PLAYLIST_DESCRIPTION PLAYLIST_PRIVACY])) ∧
    (env.hasRefreshTokenMethod = true → env.createFails = false → env.lookupFails = true →
      strIsEmpty pid = false →
      getOrCreatePlaylist env (some pid) =
        (Except.ok env.newPlaylistId,
          [ApiCall.playlistsList pid,
            ApiCall.playlistsInsert PLAYLIST_TITLE PLAYLIST_DESCRIPTION PLAYLIST_PRIVACY])) := by
  refine ⟨?_, ?_, ?_⟩
  · intro h
    have hvv : validateEnvVars vars = Except.error JsError.missingEnvVars := by
      simp [validateEnvVars, h, envMissing]
    constructor <;> simp [updatePlaylist, hvv]
  · intro h1 h2
    simp [getOrCreatePlaylist, ensureValidToken, createPlaylistCall, h1, h2]
  · intro h1 h2 h3 h4
    simp [getOrCreatePlaylist, ensureValidToken, createPlaylistCall, h1, h2, h3, h4]

/-- Witness for the amended C7. -/
theorem getOrCreatePlaylist_creation_spec_witness :
    varsNoPlaylist.playlistId = none ∧
    (updatePlaylist ApiEnv.ok varsNoPlaylist (samplePlaylist 0) [samplePage]).apiCalls = [] ∧
    getOrCreatePlaylist ApiEnv.ok none =
      (Except.ok "PLnew",
        [ApiCall.playlistsInsert PLAYLIST_TITLE PLAYLIST_DESCRIPTION PLAYLIST_PRIVACY]) :=
  ⟨by decide,
    ((getOrCreatePlaylist_creation_spec ApiEnv.ok varsNoPlaylist (samplePlaylist 0)
      [samplePage] "PLx").1 rfl).2,
    (getOrCreatePlaylist_creation_spec ApiEnv.ok varsNoPlaylist (samplePlaylist 0)
      [samplePage] "PLx").2.1 rfl rfl⟩

/-! ## C8: retry backoff -/

theorem retryGo_calls_pos {E A : Type} (f : Nat → Except E A) (sr : E → Bool)
    (maxA : Nat) : ∀ fuel attempt, 1 ≤ fuel →
    1 ≤ (Utils.retryGo f sr maxA fuel attempt).2.1 := by
  intro fuel attempt h
  match fuel, h with
  | n + 1, _ =>
    cases hf : f attempt with
    | ok a => simp [Utils.retryGo, hf]
    | error e =>
      by_cases hc : attempt + 1 = maxA ∨ sr e = false
      · simp [Utils.retryGo, hf, hc]
      · simp [Utils.retryGo, hf, hc]

/-- The delays slept by `Utils.retry` are exactly
`min(INITIAL_DELAY * 2^(attempt-1), MAX_DELAY)` for the successive failed
attempts, and at most `fuel` calls are made. -/
theorem retryGo_spec {E A : Type} (f : Nat → Except E A) (sr : E → Bool)
    (maxA : Nat) : ∀ fuel attempt, fuel + attempt = maxA →
    (Utils.retryGo f sr maxA fuel attempt).2.2 =
      (List.range ((Utils.retryGo f sr maxA fuel attempt).2.1 - 1)).map
        (fun i => min (INITIAL_DELAY * 2 ^ (attempt + i)) MAX_DELAY) ∧
    (Utils.retryGo f sr maxA fuel attempt).2.1 ≤ fuel := by
  intro fuel
  induction fuel with
  | zero => intro attempt h; simp [Utils.retryGo]
  | succ n ih =>
    intro attempt h
    cases hf : f attempt with
    | ok a => simp [Utils.retryGo, hf]
    | error e =>
      by_cases hc : attempt + 1 = maxA ∨ sr e = false
      · simp [Utils.retryGo, hf, hc]
      · have hne : attempt + 1 ≠ maxA := fun hh => hc (Or.inl hh)
        have hn : 1 ≤ n := by omega
        have hrec := ih (attempt + 1) (by omega)
        have hpos := retryGo_calls_pos f sr maxA n (attempt + 1) hn
        simp only [Utils.retryGo, hf, hc, if_false]
        constructor
        · obtain ⟨m, hm⟩ : ∃ m, (Utils.retryGo f sr maxA n (attempt + 1)).2.1 = m + 1 :=
            ⟨(Utils.retryGo f sr maxA n (attempt + 1)).2.1 - 1, by omega⟩
          rw [hm] at hrec
          simp only [Nat.add_sub_cancel] at hrec
          rw [hm]
          simp only [Nat.add_sub_cancel, List.range_succ_eq_map, List.map_cons, List.map_map]
          congr 1
          rw [hrec.1]
          apply List.map_congr_left
          intro i _
          simp only [Function.comp]
          have harith : attempt + 1 + i = attempt + Nat.succ i := by omega
          rw [harith]
        · have := hrec.2
          omega

/-- C8 (confirmed): the retry helper sleeps
`min(INITIAL_DELAY * 2^(k-1), MAX_DELAY)` before retry `k+1` (the delays
list holds exactly those values for the failed attempts `1, 2, ...`), makes
at most `MAX_ATTEMPTS` calls, and an operation failing transiently on
attempt 1 and succeeding on attempt 2 returns that success after exactly
two calls and one one-second delay. -/
theorem Utils_retry_backoff {E A : Type} (f : Nat → Except E A) (sr : E → Bool) (e : E) (a : A)
    (hf0 : f 0 = Except.error e) (hsr : sr e = true) (hf1 : f 1 = Except.ok a) :
    (∀ (g : Nat → Except E A) (p : E → Bool),
      (Utils.retry g p MAX_ATTEMPTS).2.2 =
        (List.range ((Utils.retry g p MAX_ATTEMPTS).2.1 - 1)).map
          (fun i => min (INITIAL_DELAY * 2 ^ i) MAX_DELAY) ∧
      (Utils.retry g p MAX_ATTEMPTS).2.1 ≤ MAX_ATTEMPTS) ∧
    (Utils.retry f sr MAX_ATTEMPTS).1 = Except.ok a ∧
    (Utils.retry f sr MAX_ATTEMPTS).2.1 = 2 ∧
    (Utils.retry f sr MAX_ATTEMPTS).2.2 = [INITIAL_DELAY] := by
  refine ⟨?_, ?_⟩
  · intro g p
    have := retryGo_spec g p MAX_ATTEMPTS MAX_ATTEMPTS 0 (Nat.add_zero _)
    simpa [Utils.retry] using this
  · have h2 : (2 : Nat) ≠ 0 := by omega
    simp [Utils.retry, Utils.retryGo, MAX_ATTEMPTS, hf0, hsr, hf1, INITIAL_DELAY, MAX_DELAY]

/-- The probe operation for the C8 witness: fails once, then succeeds. -/
def retryProbe : Nat → Except JsError Nat :=
  fun n => if n = 0 then Except.error JsError.listFailed else Except.ok 7

/-- Witness for C8. -/
theorem Utils_retry_backoff_witness :
    retryProbe 0 = Except.error JsError.listFailed ∧
    (Utils.retry retryProbe (fun _ => true) MAX_ATTEMPTS).1 = Except.ok 7 ∧
    (Utils.retry retryProbe (fun _ => true) MAX_ATTEMPTS).2.1 = 2 ∧
    (Utils.retry retryProbe (fun _ => true) MAX_ATTEMPTS).2.2 = [INITIAL_DELAY] :=
  ⟨rfl,
    (Utils_retry_backoff retryProbe (fun _ => true) JsError.listFailed 7 rfl rfl rfl).2.1,
    (Utils_retry_backoff retryProbe (fun _ => true) JsError.listFailed 7 rfl rfl rfl).2.2.1,
    (Utils_retry_backoff retryProbe (fun _ => true) JsError.listFailed 7 rfl rfl rfl).2.2.2⟩

/-! ## C9: inclusion filter -/

theorem collectVideos_mem (pages : List (List Video)) :
    ∀ videos attempts (v : Video), v ∈ collectVideos pages videos attempts →
      v ∈ videos ∨ matchesInclude v.title = true := by
  induction pages with
  | nil =>
    intro videos attempts v h
    exact Or.inl h
  | cons page rest ih =>
    intro videos attempts v h
    simp only [collectVideos] at h
    split at h
    · exact Or.inl h
    · split at h
      · exact Or.inl h
      · split at h
        · rcases List.mem_append.mp h with h1 | h2
          · exact Or.inl h1
          · exact Or.inr (List.mem_filter.mp (List.mem_of_mem_take h2)).2
        · rcases ih _ _ _ h with h1 | h2
          · rcases List.mem_append.mp h1 with h3 | h4
            · exact Or.inl h3
            · exact Or.inr (List.mem_filter.mp (List.mem_of_mem_take h4)).2
          · exact Or.inr h2

/-- C9 (confirmed): every candidate returned by the selector has a title
matching at least one configured inclusion pattern, the match being
case-insensitive. -/
theorem getLatestVideos_filtered (env : ApiEnv) (pages : List (List Video)) (v : Video)
    (h : v ∈ getLatestVideos env pages) : matchesInclude v.title = true := by
  unfold getLatestVideos at h
  split at h
  · cases h
  · rcases collectVideos_mem pages [] 0 v (List.mem_of_mem_take h) with h1 | h2
    · cases h1
    · exact h2

/-- A search item whose title carries an inclusion pattern in lower case. -/
def lcVideo : Video :=
  { id := "lc", title := "[official audio] song", channelName := "ch", publishedAt := 3 }

/-- Witness for C9: the lower-case `[official audio]` title is selected and
matches the pattern case-insensitively. -/
theorem getLatestVideos_filtered_witness :
    lcVideo ∈ getLatestVideos ApiEnv.ok [[lcVideo]] ∧ matchesInclude lcVideo.title = true :=
  ⟨by decide, getLatestVideos_filtered ApiEnv.ok [[lcVideo]] lcVideo (by decide)⟩

/-! ## C10: the missing refreshTokenIfNeeded method -/

/-- C10 (confirmed): when the client object lacks `refreshTokenIfNeeded` —
as the source's `YouTubeClient` does — `ensureValidToken` raises a
`TypeError`; every `getOrCreatePlaylist` call rethrows it before any remote
call; every `getPlaylistItems` call (the cache starts empty and can never
be filled) swallows it and returns the empty list; and every main-flow run
exits 1 with zero playlist mutations, so this variant can never perform a
successful playlist update. -/
theorem noRefreshMethod_breaks_run (env : ApiEnv) (h : env.hasRefreshTokenMethod = false) :
    ensureValidToken env = Except.error JsError.typeErrorNoRefreshMethod ∧
    (∀ cfg, getOrCreatePlaylist env cfg = (Except.error JsError.typeErrorNoRefreshMethod, [])) ∧
    (∀ st, getPlaylistItems env st none = ([], none)) ∧
    (∀ (vars : EnvVars) (st : PlaylistState) (pages : List (List Video)),
      (updatePlaylist env vars st pages).exitCode = 1 ∧
      (updatePlaylist env vars st pages).inserts = [] ∧
      (updatePlaylist env vars st pages).deletes = []) := by
  have hens : ensureValidToken env = Except.error JsError.typeErrorNoRefreshMethod := by
    simp [ensureValidToken, h]
  refine ⟨hens, ?_, ?_, ?_⟩
  · intro cfg
    simp [getOrCreatePlaylist, hens]
  · intro st
    simp [getPlaylistItems, hens]
  · intro vars st pages
    cases hvv : validateEnvVars vars with
    | error e => refine ⟨?_, ?_, ?_⟩ <;> simp [updatePlaylist, hvv]
    | ok u => refine ⟨?_, ?_, ?_⟩ <;> simp [updatePlaylist, hvv, getOrCreatePlaylist, hens]

/-- Witness for C10 at a concrete environment and run. -/
theorem noRefreshMethod_breaks_run_witness :
    envNoRefresh.hasRefreshTokenMethod = false ∧
    getOrCreatePlaylist envNoRefresh (some "PLabc") =
      (Except.error JsError.typeErrorNoRefreshMethod, []) ∧
    getPlaylistItems envNoRefresh (samplePlaylist 5) none = ([], none) ∧
    (updatePlaylist envNoRefresh varsOK (samplePlaylist 5) [samplePage]).exitCode = 1 :=
  ⟨rfl,
    (noRefreshMethod_breaks_run envNoRefresh rfl).2.1 (some "PLabc"),
    (noRefreshMethod_breaks_run envNoRefresh rfl).2.2.1 (samplePlaylist 5),
    ((noRefreshMethod_breaks_run envNoRefresh rfl).2.2.2 varsOK (samplePlaylist 5)
      [samplePage]).1⟩
